import Mathlib

/-!
Verification development for the bookeo-mcp repository (a Bookeo MCP server).

The embedding translates `src/bookeo_mcp/bookeo_client.py` and
`src/bookeo_mcp/server.py` into Lean.  Naive Python datetimes are modelled as
`Int` seconds since the Unix epoch (1970-01-01); `timedelta(days=n)` is
`n * 86400`.  The America/Los_Angeles time zone (used by
`search_bookings` for local-to-UTC conversion) is modelled from the IANA
tz rules in force since 2007: DST runs from 02:00 local on the second
Sunday of March to 02:00 local on the first Sunday of November, offset
UTC-7 during DST and UTC-8 otherwise.  Civil-date arithmetic uses the
standard days-from-civil / civil-from-days algorithms.

HTTP traffic is modelled environmentally: a run of the client is a pure
function of the list of responses the transport would deliver, and the
model records the transcript of requests (with their query parameters)
that the code would issue.  Monetary amounts are modelled as rationals.
-/

/-- Python substring test `needle in hay` on strings. -/
def strContains (hay needle : String) : Bool :=
  hay.toList.tails.any (fun t => needle.toList.isPrefixOf t)

/-- Python `str.lower()`: lowercase every character (ASCII-faithful model,
written over the character list so that it evaluates by reduction). -/
def pyLower (s : String) : String :=
  ⟨s.data.map Char.toLower⟩

/-- Python truthiness of an optional string (None and the empty string are falsy). -/
def truthyStr : Option String → Bool
  | none => false
  | some s => s ≠ ("")

/-- Days since 1970-01-01 of a civil date (Howard Hinnant's days_from_civil). -/
def daysFromCivil (y m d : Int) : Int :=
  let y2 := if m ≤ 2 then y - 1 else y
  let era := y2.ediv 400
  let yoe := y2 - era * 400
  let mp := (m + 9).emod 12
  let doy := (153 * mp + 2).ediv 5 + d - 1
  let doe := yoe * 365 + yoe.ediv 4 - yoe.ediv 100 + doy
  era * 146097 + doe - 719468

/-- Civil date (year, month, day) of a day count since 1970-01-01
(Howard Hinnant's civil_from_days). -/
def civilFromDays (z : Int) : Int × Int × Int :=
  let z2 := z + 719468
  let era := z2.ediv 146097
  let doe := z2 - era * 146097
  let yoe := (doe - doe.ediv 1460 + doe.ediv 36524 - doe.ediv 146096).ediv 365
  let y := yoe + era * 400
  let doy := doe - (365 * yoe + yoe.ediv 4 - yoe.ediv 100)
  let mp := (5 * doy + 2).ediv 153
  let d := doy - (153 * mp + 2).ediv 5 + 1
  let m := if mp < 10 then mp + 3 else mp - 9
  (if m ≤ 2 then y + 1 else y, m, d)

/-- First day on or after day `z` that is a Sunday (day 0 = 1970-01-01, a Thursday). -/
def firstSundayOnOrAfter (z : Int) : Int :=
  z + (7 - (z + 4).emod 7).emod 7

/-- Day number of the second Sunday of March of year `y` (US DST start day). -/
def secondSundayOfMarch (y : Int) : Int :=
  firstSundayOnOrAfter (daysFromCivil y 3 1) + 7

/-- Day number of the first Sunday of November of year `y` (US DST end day). -/
def firstSundayOfNovember (y : Int) : Int :=
  firstSundayOnOrAfter (daysFromCivil y 11 1)

/-- Whether a naive local timestamp (seconds) falls in US Pacific DST,
modelled from the IANA rules for America/Los_Angeles since 2007. -/
def laIsDST (t : Int) : Bool :=
  let y := (civilFromDays (t.fdiv 86400)).1
  let dstStart := secondSundayOfMarch y * 86400 + 7200
  let dstEnd := firstSundayOfNovember y * 86400 + 7200
  decide (dstStart ≤ t ∧ t < dstEnd)

/-- UTC offset (seconds) of America/Los_Angeles at a naive local timestamp. -/
def laOffset (t : Int) : Int :=
  if laIsDST t then -25200 else -28800

/-- Convert a naive America/Los_Angeles wall-clock timestamp to the UTC instant,
as `datetime.astimezone` does after `replace(tzinfo=local_tz)`. -/
def localToUtc (t : Int) : Int :=
  t - laOffset t

/-- Midnight of the day containing timestamp `t`, i.e. Python
`dt.replace(hour=0, minute=0, second=0)` at whole-second granularity. -/
def dayStart (t : Int) : Int :=
  86400 * (t.fdiv 86400)

/-- Monetary amount object of the Bookeo API: an optional numeric amount
(modelled as a rational) and an optional currency code.  An absent amount
dict in the source (dict-get default) is the all-`none` value. -/
structure Amount where
  amount : Option ℚ
  currency : Option String
deriving Repr, DecidableEq

instance : Inhabited Amount := ⟨⟨none, none⟩⟩

/-- One entry of a customer's phoneNumbers list. -/
structure PhoneNumber where
  number : Option String
deriving Repr, DecidableEq, Inhabited

/-- Customer block of a booking document. -/
structure Customer where
  firstName : Option String
  lastName : Option String
  emailAddress : Option String
  phoneNumbers : Option (List PhoneNumber)
deriving Repr, DecidableEq

instance : Inhabited Customer := ⟨⟨none, none, none, none⟩⟩

/-- One participant-category entry of a booking's participants.numbers list. -/
structure ParticipantEntry where
  number : Option Int
deriving Repr, DecidableEq, Inhabited

/-- Participants block of a booking document. -/
structure Participants where
  numbers : Option (List ParticipantEntry)
deriving Repr, DecidableEq

instance : Inhabited Participants := ⟨⟨none⟩⟩

/-- Price block of a booking document; the three sub-objects are passed
through opaquely by the server layer. -/
structure Price where
  totalGross : Option Amount
  totalPaid : Option Amount
  balanceDue : Option Amount
deriving Repr, DecidableEq

instance : Inhabited Price := ⟨⟨none, none, none⟩⟩

/-- Booking document as consumed by the server layer; absent JSON keys are
`none`. -/
structure Booking where
  bookingNumber : Option String
  startTime : Option String
  endTime : Option String
  productName : Option String
  productId : Option String
  creationTime : Option String
  source : Option String
  customer : Option Customer
  participants : Option Participants
  price : Option Price
  priceAdjustments : Option (List String)
deriving Repr, DecidableEq

instance : Inhabited Booking :=
  ⟨⟨none, none, none, none, none, none, none, none, none, none, none⟩⟩

/-- Pagination metadata under `info.paging` of a search response.  An absent
`info` or `paging` object collapses (via the source's dict-get defaults) to
the all-`none` value. -/
structure Paging where
  nextPageURL : Option String
  pageNavigationToken : Option String
  currentPage : Option Int
deriving Repr, DecidableEq

instance : Inhabited Paging := ⟨⟨none, none, none⟩⟩

/-- One JSON response of the paginated /bookings search endpoint: the `data`
record list (dict-get default `[]`) and the paging metadata. -/
structure PageResponse where
  data : List Booking
  paging : Paging
deriving Repr, DecidableEq

instance : Inhabited PageResponse := ⟨⟨[], default⟩⟩

/-- Payment document of the Bookeo payments endpoint; absent keys are `none`. -/
structure Payment where
  amount : Option Amount
  paymentMethod : Option String
  gatewayName : Option String
  reason : Option String
  agent : Option String
  receivedTime : Option String
deriving Repr, DecidableEq

instance : Inhabited Payment := ⟨⟨none, none, none, none, none, none⟩⟩

/-- One HTTP response as seen by `_request`: status code, the parsed
Retry-After header if present, and the JSON body (delivered only on
success). -/
structure HttpResp (β : Type) where
  status : Nat
  retryAfter : Option Int
  body : β
deriving Repr

/-- Transcript of one `_request` call: every attempt transmitted (all carry
the same endpoint and parameters), the sleep durations taken for 429
responses, and the final outcome — `Except.ok` with the body on a 2xx
status, `Except.error` with the status otherwise (`raise_for_status`).
`none` means the response environment was exhausted while the code was
still retrying (a model artifact standing for a still-running loop). -/
structure RequestRun (ρ β : Type) where
  attempts : List ρ
  sleeps : List Int
  outcome : Option (Except Nat β)
deriving Repr

/-- Model of `BookeoClient._request`: loop over the transport's responses;
on status 429 sleep for the Retry-After duration (60 when the header is
absent) and re-issue the identical request `p`; on any other status stop,
returning the JSON body for a 2xx status and an error otherwise. -/
def requestLoop {ρ β : Type} (p : ρ) : List (HttpResp β) → RequestRun ρ β
  | [] => ⟨[], [], none⟩
  | r :: rs =>
    if r.status == 429 then
      let next := requestLoop p rs
      ⟨p :: next.attempts, (r.retryAfter.getD 60) :: next.sleeps, next.outcome⟩
    else if 200 ≤ r.status ∧ r.status < 300 then ⟨[p], [], some (.ok r.body)⟩
    else ⟨[p], [], some (.error r.status)⟩

/-- Fuel-driven unfolding of the chunk loop of `search_bookings`: while
`current_start < end_time`, emit the chunk
`(current_start, min (current_start + 30 days, end_time))` and advance
`current_start` to the chunk's end.  The fuel bounds the number of
iterations; `chunks` supplies a provably sufficient amount. -/
def chunksFuel : Nat → Int → Int → List (Int × Int)
  | 0, _, _ => []
  | n + 1, s, e =>
    if s < e then
      let m := min (s + 2592000) e
      (s, m) :: chunksFuel n m e
    else []

/-- Chunk sequence of `search_bookings` for the window `[s, e)`:
each chunk is `(current_start, min (current_start + 30 days, end_time))`,
30 days being 2592000 seconds. -/
def chunks (s e : Int) : List (Int × Int) :=
  chunksFuel (e - s).toNat s e

/-- UTC window transmitted for one chunk: the chunk start is floored to
local midnight, the chunk end is set to 23:59:59 of its local calendar
day (`replace(hour=23, minute=59, second=59)`), and both are converted
from America/Los_Angeles wall time to UTC. -/
def chunkWindowUTC (c : Int × Int) : Int × Int :=
  (localToUtc (dayStart c.1), localToUtc (dayStart c.2 + 86399))

/-- Query parameters of one /bookings search request as transmitted:
the UTC window, itemsPerPage (fixed 100), the two boolean filters, and
the page cursor — present (token, pageNumber) exactly when the stored
page token is truthy. -/
structure BookingReq where
  startTime : Int
  endTime : Int
  itemsPerPage : Nat
  expandCustomer : Bool
  includeCanceled : Bool
  cursor : Option (String × Int)
deriving Repr, DecidableEq

/-- Cursor parameters added to a request: Python adds `pageNavigationToken`
and `pageNumber` only when the stored token is truthy. -/
def pyCursor (tok : Option String) (num : Int) : Option (String × Int) :=
  if truthyStr tok then some (tok.getD (""), num) else none

/-- Build the request of one iteration of the pagination loop. -/
def mkBookingReq (win : Int × Int) (ec ic : Bool) (tok : Option String) (num : Int) :
    BookingReq :=
  ⟨win.1, win.2, 100, ec, ic, pyCursor tok num⟩

/-- How a (partial) run of the generator ended. -/
inductive RunStatus where
  | done
  | raised (msg : String)
  | starved
deriving Repr, DecidableEq

/-- Result of running one chunk's pagination loop: the requests issued, the
records yielded, how the loop ended, and the unconsumed response
environment.  `starved` marks exhaustion of the environment (model
artifact). -/
structure PagRun where
  reqs : List BookingReq
  recs : List Booking
  status : RunStatus
  rest : List (Except String PageResponse)
deriving Repr

/-- Model of the inner `while True` pagination loop of `search_bookings`
for one chunk with UTC window `win`: issue a request with the current
cursor state, yield the response's records, and if the response carries a
truthy `nextPageURL` take the returned `pageNavigationToken` and
`currentPage + 1` (currentPage defaulting to 1) and continue, else stop.
Each environment entry is the outcome of one `_request` call; an
`Except.error` entry is an exception propagating out of `_request`. -/
def paginate (win : Int × Int) (ec ic : Bool) :
    Option String → Int → List (Except String PageResponse) → PagRun
  | _, _, [] => ⟨[], [], .starved, []⟩
  | tok, num, r :: env =>
    let req := mkBookingReq win ec ic tok num
    match r with
    | .error msg => ⟨[req], [], .raised msg, env⟩
    | .ok resp =>
      if truthyStr resp.paging.nextPageURL then
        let next :=
          paginate win ec ic resp.paging.pageNavigationToken
            ((resp.paging.currentPage.getD 1) + 1) env
        ⟨req :: next.reqs, resp.data ++ next.recs, next.status, next.rest⟩
      else ⟨[req], resp.data, .done, env⟩

/-- Result of a whole `search_bookings` run: the transcript of /bookings
requests, the records yielded, and how the run ended. -/
structure SearchRun where
  reqs : List BookingReq
  recs : List Booking
  status : RunStatus
deriving Repr

/-- Model of the outer chunk loop of `search_bookings`: for each chunk, in
order, run the pagination loop with a fresh cursor (token None); an
exception aborts the remaining chunks. -/
def searchChunks (ec ic : Bool) :
    List (Int × Int) → List (Except String PageResponse) → SearchRun
  | [], _ => ⟨[], [], .done⟩
  | c :: cs, env =>
    let run := paginate (chunkWindowUTC c) ec ic none 0 env
    match run.status with
    | .done =>
      let rest := searchChunks ec ic cs run.rest
      ⟨run.reqs ++ rest.reqs, run.recs ++ rest.recs, rest.status⟩
    | s => ⟨run.reqs, run.recs, s⟩

/-- Model of `BookeoClient.search_bookings` for the window `[s, e)` (naive
local datetimes as epoch seconds) with the expand-customer and
include-canceled flags, driven by the response environment. -/
def search_bookings (s e : Int) (ec ic : Bool)
    (env : List (Except String PageResponse)) : SearchRun :=
  searchChunks ec ic (chunks s e) env

/-- Customer summary produced by `format_customer`. -/
structure CustomerView where
  name : String
  email : String
  phone : String
deriving Repr, DecidableEq

/-- Model of `server.format_customer`: name is the stripped space-joined
first and last name, email the address or empty, phone the first phone
number's `number` field if any phone numbers exist else empty. -/
def format_customer (b : Booking) : CustomerView :=
  let c := b.customer.getD default
  let phones := c.phoneNumbers.getD []
  { name := (c.firstName.getD ("") ++ (" ") ++ c.lastName.getD ("")).trim
    email := c.emailAddress.getD ("")
    phone :=
      match phones with
      | [] => ("")
      | p :: _ => p.number.getD ("") }

/-- Price summary produced by `format_price`; the three amounts are passed
through opaquely (an absent sub-object becomes the empty amount, as the
source's dict-get default produces an empty dict). -/
structure PriceView where
  total_gross : Amount
  total_paid : Amount
  balance_due : Amount
deriving Repr, DecidableEq

/-- Model of `server.format_price`. -/
def format_price (b : Booking) : PriceView :=
  let pr := b.price.getD default
  { total_gross := pr.totalGross.getD default
    total_paid := pr.totalPaid.getD default
    balance_due := pr.balanceDue.getD default }

/-- Model of `server.format_participants`: the sum of the `number` fields
(0 when absent) over the participants.numbers list. -/
def format_participants (b : Booking) : Int :=
  (((b.participants.getD default).numbers.getD []).map (fun p => p.number.getD 0)).sum

/-- Analysis of a single payment as produced by `server.analyze_payment`. -/
structure AnalyzedPayment where
  amount : Amount
  method : String
  gateway : String
  is_manual : Bool
  reason : String
  agent : String
  received_time : String
deriving Repr, DecidableEq

/-- Model of `server.analyze_payment`: the gateway field is the gateway
name when non-empty, else the literal "manual"; `is_manual` is the
Python `not bool(gateway)`, i.e. the gateway name is absent or empty. -/
def analyze_payment (p : Payment) : AnalyzedPayment :=
  let gateway := p.gatewayName.getD ("")
  { amount := p.amount.getD default
    method := p.paymentMethod.getD ("unknown")
    gateway := if gateway = ("") then ("manual") else gateway
    is_manual := gateway = ("")
    reason := p.reason.getD ("")
    agent := p.agent.getD ("")
    received_time := p.receivedTime.getD ("") }

/-- Booking summary row returned by the two search tools. -/
structure BookingSummary where
  booking_number : Option String
  start_time : Option String
  product_name : Option String
  customer : CustomerView
  participants : Int
  price : PriceView
deriving Repr, DecidableEq

/-- Shape one booking into the summary row appended by the search tools. -/
def summaryOfBooking (b : Booking) : BookingSummary :=
  { booking_number := b.bookingNumber
    start_time := b.startTime
    product_name := b.productName
    customer := format_customer b
    participants := format_participants b
    price := format_price b }

/-- Full detail record returned by the `get_booking` tool. -/
structure BookingDetail where
  booking_number : Option String
  start_time : Option String
  end_time : Option String
  product_name : Option String
  product_id : Option String
  customer : CustomerView
  participants : Int
  price : PriceView
  price_adjustments : List String
  creation_time : Option String
  source : Option String
deriving Repr, DecidableEq

/-- Outcome of one tool invocation at the MCP boundary: a normal return
value, a structured error payload (the source's single-key error dict,
carrying the message), or an exception left uncaught by the tool. -/
inductive ToolOutcome (α : Type) where
  | value (a : α)
  | errorPayload (msg : String)
  | raised (msg : String)
deriving Repr

/-- Model of the `get_booking` tool, parameterized by the outcome of the
client call (an `Except.error` is an exception raised by the client,
caught by the tool's try/except). -/
def get_booking (r : Except String Booking) : ToolOutcome BookingDetail :=
  match r with
  | .error e => .errorPayload (("Booking not found or API error: ") ++ e)
  | .ok b =>
    .value
      { booking_number := b.bookingNumber
        start_time := b.startTime
        end_time := b.endTime
        product_name := b.productName
        product_id := b.productId
        customer := format_customer b
        participants := format_participants b
        price := format_price b
        price_adjustments := b.priceAdjustments.getD []
        creation_time := b.creationTime
        source := b.source }

/-- Aggregate payment report returned by the `get_booking_payments` tool. -/
structure PaymentsReport where
  booking_number : String
  payment_count : Nat
  total_paid : ℚ
  currency : String
  has_manual_payment : Bool
  has_stripe_payment : Bool
  payment_methods : List String
  payments : List AnalyzedPayment
deriving Repr, DecidableEq

/-- The report computed by `get_booking_payments` on a successful payments
fetch: analyze each payment, sum the amounts (absent amount is 0), take
the flags from the analyzed list (the Stripe flag filters on a truthy
gateway field and tests for the substring "stripe" in the lowercased
gateway), deduplicate the methods, and take the currency from the first
payment when one exists else the fallback "CAD". -/
def paymentsReport (bn : String) (ps : List Payment) : PaymentsReport :=
  let aps := ps.map analyze_payment
  { booking_number := bn
    payment_count := ps.length
    total_paid := (aps.map (fun a => a.amount.amount.getD 0)).sum
    currency :=
      match aps with
      | [] => ("CAD")
      | a :: _ => a.amount.currency.getD ("CAD")
    has_manual_payment := aps.any (fun a => a.is_manual)
    has_stripe_payment :=
      aps.any (fun a => decide (a.gateway ≠ ("")) && strContains (pyLower a.gateway) ("stripe"))
    payment_methods := (aps.map (fun a => a.method)).dedup
    payments := aps }

/-- Model of the `get_booking_payments` tool, parameterized by the outcome
of the client's payments fetch. -/
def get_booking_payments (bn : String) (r : Except String (List Payment)) :
    ToolOutcome PaymentsReport :=
  match r with
  | .error e => .errorPayload (("Could not fetch payments: ") ++ e)
  | .ok ps => .value (paymentsReport bn ps)

/-- Substring filter of `search_bookings_by_customer`: the Python
`name_lower and name_lower in customer name lower` truthiness chain for
the name and the email, joined with or. -/
def customerMatches (name email : String) (b : Booking) : Bool :=
  let c := format_customer b
  let nl := if name = ("") then ("") else pyLower name
  let el := if email = ("") then ("") else pyLower email
  (decide (nl ≠ ("")) && strContains (pyLower c.name) nl) ||
    (decide (el ≠ ("")) && strContains (pyLower c.email) el)

/-- Model of the `search_bookings_by_customer` tool.  `now` is the naive
local timestamp of `datetime.now()`; the window is
`[now - min(days_back, 365) days, now)`.  The second component counts the
/bookings requests transmitted.  A `raised` outcome is an exception the
tool does not catch; environment starvation is a model artifact also
reported as `raised`. -/
def search_bookings_by_customer (name email : String) (days_back : Int)
    (now : Int) (env : List (Except String PageResponse)) :
    ToolOutcome (List BookingSummary) × Nat :=
  if name = ("") ∧ email = ("") then
    (.errorPayload ("Must provide either customer_name or customer_email"), 0)
  else
    let db := min days_back 365
    let run := search_bookings (now - db * 86400) now true false env
    match run.status with
    | .raised m => (.raised m, run.reqs.length)
    | .starved => (.raised ("transport response environment exhausted"), run.reqs.length)
    | .done =>
      (.value ((run.recs.filter (customerMatches name email)).map summaryOfBooking),
        run.reqs.length)

/-- Calendar date as parsed by `datetime.strptime(s, "%Y-%m-%d")`. -/
structure CivilDate where
  year : Int
  month : Int
  day : Int
deriving Repr, DecidableEq

/-- Naive midnight timestamp of a parsed calendar date. -/
def dateToTime (d : CivilDate) : Int :=
  86400 * daysFromCivil d.year d.month d.day

/-- Model of the `search_bookings_by_date` tool on successfully parsed
dates: the end date is extended one day (inclusive end), a window span of
more than 366 days is rejected before any client call, and otherwise the
client search drives the result.  The second component counts the
/bookings requests transmitted. -/
def search_bookings_by_date (start_date end_date : CivilDate)
    (include_canceled : Bool) (env : List (Except String PageResponse)) :
    ToolOutcome (List BookingSummary) × Nat :=
  let start_time := dateToTime start_date
  let end_time := dateToTime end_date + 86400
  if (end_time - start_time).fdiv 86400 > 366 then
    (.errorPayload ("Date range cannot exceed 365 days"), 0)
  else
    let run := search_bookings start_time end_time true include_canceled env
    match run.status with
    | .raised m => (.raised m, run.reqs.length)
    | .starved => (.raised ("transport response environment exhausted"), run.reqs.length)
    | .done => (.value (run.recs.map summaryOfBooking), run.reqs.length)

/-- The chunk loop produces nothing when the window is empty or inverted. -/
lemma chunksFuel_of_not_lt (n : Nat) (s e : Int) (h : ¬ s < e) :
    chunksFuel n s e = [] := by
  cases n <;> simp [chunksFuel, h]

/-- A window of at most 30 days yields the single chunk `(s, min (s + 30d) e)`. -/
lemma chunksFuel_single (n : Nat) (s e : Int) (h : s < e) (h30 : e ≤ s + 2592000)
    (hn : (e - s).toNat ≤ n) : chunksFuel n s e = [(s, e)] := by
  cases n with
  | zero => omega
  | succ n =>
    have hmin : min (s + 2592000) e = e := min_eq_right h30
    simp only [chunksFuel, if_pos h, hmin]
    rw [chunksFuel_of_not_lt n e e (lt_irrefl e)]

/-- The search run for an empty or inverted window: no chunks, no requests,
no records. -/
lemma search_bookings_empty_window (s e : Int) (ec ic : Bool)
    (env : List (Except String PageResponse)) (h : e ≤ s) :
    search_bookings s e ec ic env = ⟨[], [], .done⟩ := by
  have h0 : (e - s).toNat = 0 := by omega
  simp [search_bookings, chunks, h0, chunksFuel, searchChunks]

/-- Claim C1 (code bug evaluation).  For
`search_bookings_by_date("2024-12-27", "2024-12-27")` the tool transmits
exactly one request, and the window it sends is 2024-12-27 00:00:00 local
(1735286400 = 2024-12-27T08:00:00Z) through 2024-12-28 23:59:59 local
(1735459199 = 2024-12-29T07:59:59Z): the end instant is 23:59:59 of
December 28, not of December 27 (which would be 1735372799 =
2024-12-28T07:59:59Z), so the transmitted window covers two local
calendar days rather than exactly Dec 27. -/
theorem c1_search_by_date_transmits_extra_day :
    (search_bookings_by_date ⟨2024, 12, 27⟩ ⟨2024, 12, 27⟩ false [Except.ok default]).2 = 1 ∧
    (search_bookings (dateToTime ⟨2024, 12, 27⟩) (dateToTime ⟨2024, 12, 27⟩ + 86400) true false
        [Except.ok default]).reqs =
      [⟨1735286400, 1735459199, 100, true, false, none⟩] ∧
    localToUtc (86400 * daysFromCivil 2024 12 27) = 1735286400 ∧
    localToUtc (86400 * daysFromCivil 2024 12 28 + 86399) = 1735459199 ∧
    localToUtc (86400 * daysFromCivil 2024 12 27 + 86399) = 1735372799 ∧
    (1735459199 : Int) ≠ 1735372799 := by
  refine ⟨rfl, rfl, rfl, rfl, rfl, by decide⟩

/-- Claim C4.  On every 429 response `_request` sleeps for the parsed
Retry-After value (60 when the header is absent) and re-issues the
identical request, with no bound on the number of retries (`pre` is an
arbitrarily long run of 429s); the first non-429 response ends the loop,
delivering the body on a 2xx status and an error on any other status. -/
theorem c4_retry_until_non_429 {ρ β : Type} (p : ρ) (pre : List (HttpResp β))
    (fin : HttpResp β) (hpre : ∀ r ∈ pre, r.status = 429) (hfin : fin.status ≠ 429) :
    requestLoop p (pre ++ [fin]) =
      ⟨List.replicate (pre.length + 1) p,
        pre.map (fun r => r.retryAfter.getD 60),
        some (if 200 ≤ fin.status ∧ fin.status < 300 then .ok fin.body else .error fin.status)⟩ := by
  induction pre with
  | nil =>
    have : (fin.status == 429) = false := by simpa using hfin
    simp only [List.nil_append, requestLoop, this, Bool.false_eq_true, if_false]
    split <;> simp
  | cons r pre ih =>
    have hr : r.status = 429 := hpre r (List.mem_cons_self r pre)
    have ih2 := ih (fun x hx => hpre x (List.mem_cons_of_mem r hx))
    simp only [List.cons_append, requestLoop, hr, beq_self_eq_true, if_true]
    simp [ih2, List.replicate_succ]

/-- Claim C5 counterexample.  The `search_bookings_by_date` tool does not
catch Core failures: with a failing transport the invocation raises
instead of returning a structured error payload, refuting the claim that
all four tool operations never raise. -/
theorem c5_counterexample_search_tool_raises :
    (search_bookings_by_date ⟨2024, 12, 27⟩ ⟨2024, 12, 27⟩ false
        [Except.error ("HTTP 500 Internal Server Error")]).1 =
      ToolOutcome.raised ("HTTP 500 Internal Server Error") := rfl

/-- Claim C5 as amended.  The two lookup operations, `get_booking` and
`get_booking_payments`, never raise: for every Core outcome they return a
normal value, and every Core failure is converted into the structured
error payload with the corresponding message. -/
theorem c5_lookup_tools_never_raise :
    (∀ (r : Except String Booking) (m : String), get_booking r ≠ .raised m) ∧
    (∀ (bn : String) (r : Except String (List Payment)) (m : String),
        get_booking_payments bn r ≠ .raised m) ∧
    (∀ e : String,
        get_booking (.error e) = .errorPayload (("Booking not found or API error: ") ++ e)) ∧
    (∀ (bn e : String),
        get_booking_payments bn (.error e) =
          .errorPayload (("Could not fetch payments: ") ++ e)) := by
  refine ⟨fun r m => ?_, fun bn r m => ?_, fun e => rfl, fun bn e => rfl⟩
  · cases r <;> simp [get_booking]
  · cases r <;> simp [get_booking_payments]

/-- Claim C6.  Whenever the parsed window span, including the one-day end
adjustment, exceeds 366 days, `search_bookings_by_date` returns the
structured error payload and transmits zero requests. -/
theorem c6_oversized_range_rejected (d1 d2 : CivilDate) (ic : Bool)
    (env : List (Except String PageResponse))
    (h : daysFromCivil d2.year d2.month d2.day + 1 -
        daysFromCivil d1.year d1.month d1.day > 366) :
    search_bookings_by_date d1 d2 ic env =
      (.errorPayload ("Date range cannot exceed 365 days"), 0) := by
  have key : (dateToTime d2 + 86400 - dateToTime d1).fdiv 86400 =
      daysFromCivil d2.year d2.month d2.day + 1 - daysFromCivil d1.year d1.month d1.day := by
    have : dateToTime d2 + 86400 - dateToTime d1 =
        86400 * (daysFromCivil d2.year d2.month d2.day + 1 -
          daysFromCivil d1.year d1.month d1.day) := by
      simp [dateToTime]; ring
    rw [this, Int.mul_fdiv_cancel_left _ (by norm_num)]
  simp only [search_bookings_by_date, key, if_pos h]

/-- Claim C6 witness: a 400-day span (2024-01-01 through 2025-02-04) is
rejected with the structured error and zero transport calls. -/
theorem c6_oversized_range_rejected_witness :
    search_bookings_by_date ⟨2024, 1, 1⟩ ⟨2025, 2, 4⟩ false [] =
      (.errorPayload ("Date range cannot exceed 365 days"), 0) :=
  c6_oversized_range_rejected ⟨2024, 1, 1⟩ ⟨2025, 2, 4⟩ false [] (by decide)

/-- Claim C7.  With both the name and the email filter empty,
`search_bookings_by_customer` returns the structured error payload and
transmits zero requests, for every days_back, clock value and transport
environment. -/
theorem c7_missing_filters_rejected (days_back now : Int)
    (env : List (Except String PageResponse)) :
    search_bookings_by_customer ("") ("") days_back now env =
      (.errorPayload ("Must provide either customer_name or customer_email"), 0) := by
  simp [search_bookings_by_customer]

/-- Claim C9.  Projection rules of the presentation layer: the customer
name is the trimmed space-joined concatenation of first and last name,
the phone is the first phone number's number field when any phone numbers
exist and empty otherwise, and the participant count is the sum of all
participant-category counts. -/
theorem c9_projection_rules (b : Booking) :
    (format_customer b).name =
      ((b.customer.getD default).firstName.getD ("") ++ (" ") ++
        (b.customer.getD default).lastName.getD ("")).trim ∧
    (format_customer b).phone =
      (((b.customer.getD default).phoneNumbers.getD []).head?.map
        (fun p => p.number.getD (""))).getD ("") ∧
    format_participants b =
      (((b.participants.getD default).numbers.getD []).map (fun p => p.number.getD 0)).sum := by
  refine ⟨rfl, ?_, rfl⟩
  simp only [format_customer]
  cases (b.customer.getD default).phoneNumbers.getD [] <;> simp

/-- Claim C10.  An empty or inverted window makes the chunk loop body
unreachable: `search_bookings` transmits no requests and yields no
records; consequently `search_bookings_by_customer` with a negative
days_back (which `min days_back 365` does not correct) returns the empty
list with zero transport calls whenever a filter is supplied. -/
theorem c10_empty_window_yields_nothing :
    (∀ (s e : Int) (ec ic : Bool) (env : List (Except String PageResponse)),
        e ≤ s → search_bookings s e ec ic env = ⟨[], [], .done⟩) ∧
    (∀ (name email : String) (days_back now : Int)
        (env : List (Except String PageResponse)),
        ¬(name = ("") ∧ email = ("")) → days_back < 0 →
        search_bookings_by_customer name email days_back now env = (.value [], 0)) := by
  refine ⟨fun s e ec ic env h => search_bookings_empty_window s e ec ic env h, ?_⟩
  intro name email days_back now env hfil hneg
  have hmin : min days_back 365 = days_back := min_eq_left (by omega)
  have hwin : now ≤ now - days_back * 86400 := by nlinarith
  have hrun := search_bookings_empty_window (now - days_back * 86400) now true false env hwin
  simp only [search_bookings_by_customer, if_neg hfil, hmin, hrun, List.filter_nil,
    List.map_nil, List.length_nil]

/-- Claim C10 witness: an inverted window produces an empty run, and a
negative days_back with a name filter returns the empty list with zero
transport calls. -/
theorem c10_empty_window_yields_nothing_witness :
    search_bookings 5 3 true false [] = ⟨[], [], .done⟩ ∧
    search_bookings_by_customer ("bob") ("") (-1) 0 [] = (.value [], 0) :=
  ⟨c10_empty_window_yields_nothing.1 5 3 true false [] (by decide),
    c10_empty_window_yields_nothing.2 ("bob") ("") (-1) 0 [] (by decide) (by decide)⟩

/-- Full invariant of the chunk loop for a non-empty window: the chunk list
is non-empty, every chunk sits inside the window with positive length of
at most 30 days, the first chunk starts at the window start, the last
ends at the window end, consecutive chunks share their boundary, the
chunks are pairwise ordered without overlap, and together they cover
exactly the window. -/
lemma chunksFuel_spec (n : Nat) : ∀ (s e : Int), s < e → (e - s).toNat ≤ n →
    chunksFuel n s e ≠ [] ∧
    (∀ p ∈ chunksFuel n s e, s ≤ p.1 ∧ p.1 < p.2 ∧ p.2 ≤ e ∧ p.2 - p.1 ≤ 2592000) ∧
    (chunksFuel n s e).head?.map Prod.fst = some s ∧
    (chunksFuel n s e).getLast?.map Prod.snd = some e ∧
    List.Chain' (fun a b => a.2 = b.1) (chunksFuel n s e) ∧
    (chunksFuel n s e).Pairwise (fun a b => a.2 ≤ b.1) ∧
    (∀ t : Int, (s ≤ t ∧ t < e) ↔ ∃ p ∈ chunksFuel n s e, p.1 ≤ t ∧ t < p.2) := by
  induction n with
  | zero => intro s e h hn; omega
  | succ n ih =>
    intro s e h hn
    by_cases h30 : e ≤ s + 2592000
    · rw [chunksFuel_single (n + 1) s e h h30 hn]
      refine ⟨by simp, ?_, by simp, by simp, by simp, by simp, ?_⟩
      · intro p hp
        simp only [List.mem_singleton] at hp
        subst hp
        exact ⟨le_refl s, h, le_refl e, by omega⟩
      · intro t
        constructor
        · intro ht
          exact ⟨(s, e), List.mem_singleton_self _, ht.1, ht.2⟩
        · rintro ⟨p, hp, h1, h2⟩
          simp only [List.mem_singleton] at hp
          subst hp
          exact ⟨h1, h2⟩
    · push_neg at h30
      have hmin : min (s + 2592000) e = s + 2592000 := min_eq_left (le_of_lt h30)
      have hstep : chunksFuel (n + 1) s e =
          (s, s + 2592000) :: chunksFuel n (s + 2592000) e := by
        simp only [chunksFuel, if_pos h, hmin]
      obtain ⟨hne, hbnd, hhd, hlast, hchain, hpw, hcov⟩ :=
        ih (s + 2592000) e h30 (by omega)
      obtain ⟨x, xs, hx⟩ := List.exists_cons_of_ne_nil hne
      have hx1 : x.1 = s + 2592000 := by
        rw [hx] at hhd
        simpa using hhd
      rw [hstep]
      refine ⟨by simp, ?_, by simp, ?_, ?_, ?_, ?_⟩
      · intro p hp
        rcases List.mem_cons.mp hp with hp | hp
        · subst hp; refine ⟨le_refl s, by omega, le_of_lt h30, by omega⟩
        · obtain ⟨b1, b2, b3, b4⟩ := hbnd p hp
          exact ⟨by omega, b2, b3, b4⟩
      · rw [hx] at hlast ⊢
        simpa using hlast
      · rw [hx] at hchain ⊢
        exact List.Chain'.cons (by simpa using hx1.symm) hchain
      · refine List.pairwise_cons.mpr ⟨?_, hpw⟩
        intro p hp
        have := (hbnd p hp).1
        omega
      · intro t
        constructor
        · intro ht
          by_cases hts : t < s + 2592000
          · exact ⟨(s, s + 2592000), List.mem_cons_self _ _, ht.1, hts⟩
          · obtain ⟨p, hp, h1, h2⟩ := (hcov t).mp ⟨by omega, ht.2⟩
            exact ⟨p, List.mem_cons_of_mem _ hp, h1, h2⟩
        · rintro ⟨p, hp, h1, h2⟩
          rcases List.mem_cons.mp hp with hp | hp
          · subst hp
            simp only at h1 h2
            exact ⟨h1, by omega⟩
          · obtain ⟨b1, b2, b3, b4⟩ := hbnd p hp
            exact ⟨by omega, by omega⟩

/-- Claim C2.  For every window with `s < e` the chunk sequence of
`search_bookings` is non-empty, each chunk `[p.1, p.2)` is non-trivial
and at most 30 days (2592000 seconds) long, the first chunk starts at
`s`, the last ends at `e`, consecutive chunks are contiguous, the chunks
are pairwise non-overlapping, and the half-open chunks cover the window
exactly; a window of exactly 30 days produces exactly one chunk. -/
theorem c2_chunks_partition_window (s e : Int) (h : s < e) :
    (chunks s e ≠ [] ∧
     (∀ p ∈ chunks s e, s ≤ p.1 ∧ p.1 < p.2 ∧ p.2 ≤ e ∧ p.2 - p.1 ≤ 2592000) ∧
     (chunks s e).head?.map Prod.fst = some s ∧
     (chunks s e).getLast?.map Prod.snd = some e ∧
     List.Chain' (fun a b => a.2 = b.1) (chunks s e) ∧
     (chunks s e).Pairwise (fun a b => a.2 ≤ b.1) ∧
     (∀ t : Int, (s ≤ t ∧ t < e) ↔ ∃ p ∈ chunks s e, p.1 ≤ t ∧ t < p.2)) ∧
    (e = s + 2592000 → chunks s e = [(s, e)]) := by
  constructor
  · exact chunksFuel_spec (e - s).toNat s e h (le_refl _)
  · intro h30
    exact chunksFuel_single (e - s).toNat s e h (by omega) (le_refl _)

/-- Claim C2 witness: a 35-day window is split into a 30-day chunk and a
5-day chunk satisfying all the partition properties, and a 30-day window
gives exactly one chunk. -/
theorem c2_chunks_partition_window_witness :
    ((chunks 0 3024000 ≠ [] ∧
      (∀ p ∈ chunks 0 3024000,
        (0:Int) ≤ p.1 ∧ p.1 < p.2 ∧ p.2 ≤ 3024000 ∧ p.2 - p.1 ≤ 2592000) ∧
      (chunks 0 3024000).head?.map Prod.fst = some 0 ∧
      (chunks 0 3024000).getLast?.map Prod.snd = some 3024000 ∧
      List.Chain' (fun a b => a.2 = b.1) (chunks 0 3024000) ∧
      (chunks 0 3024000).Pairwise (fun a b => a.2 ≤ b.1) ∧
      (∀ t : Int, ((0:Int) ≤ t ∧ t < 3024000) ↔
        ∃ p ∈ chunks 0 3024000, p.1 ≤ t ∧ t < p.2)) ∧
     ((3024000 : Int) = 0 + 2592000 → chunks 0 3024000 = [(0, 3024000)])) ∧
    chunks 0 2592000 = [(0, 2592000)] :=
  ⟨c2_chunks_partition_window 0 3024000 (by decide),
    (c2_chunks_partition_window 0 2592000 (by decide)).2 (by decide)⟩

/-- Expected request transcript of one chunk's pagination loop when every
response is consumed normally: the first request carries the incoming
cursor state, and each following request carries the previous response's
navigation token and its currentPage (default 1) plus one. -/
def pageReqs (win : Int × Int) (ec ic : Bool) :
    Option String → Int → List PageResponse → List BookingReq
  | _, _, [] => []
  | tok, num, r :: rs =>
    mkBookingReq win ec ic tok num ::
      pageReqs win ec ic r.paging.pageNavigationToken
        ((r.paging.currentPage.getD 1) + 1) rs

/-- The expected transcript has one request per response. -/
lemma pageReqs_length (win : Int × Int) (ec ic : Bool) :
    ∀ (rs : List PageResponse) (tok : Option String) (num : Int),
      (pageReqs win ec ic tok num rs).length = rs.length := by
  intro rs
  induction rs with
  | nil => intro tok num; rfl
  | cons r rest ih => intro tok num; simp [pageReqs, ih]

/-- One step of the pagination loop on a successful response that declares
a next page: record the request, yield the page, continue with the
returned token and page number. -/
lemma paginate_cons_ok_true (win : Int × Int) (ec ic : Bool) (tok : Option String)
    (num : Int) (resp : PageResponse) (env : List (Except String PageResponse))
    (h : truthyStr resp.paging.nextPageURL = true) :
    paginate win ec ic tok num (Except.ok resp :: env) =
      ⟨mkBookingReq win ec ic tok num ::
          (paginate win ec ic resp.paging.pageNavigationToken
            ((resp.paging.currentPage.getD 1) + 1) env).reqs,
        resp.data ++
          (paginate win ec ic resp.paging.pageNavigationToken
            ((resp.paging.currentPage.getD 1) + 1) env).recs,
        (paginate win ec ic resp.paging.pageNavigationToken
          ((resp.paging.currentPage.getD 1) + 1) env).status,
        (paginate win ec ic resp.paging.pageNavigationToken
          ((resp.paging.currentPage.getD 1) + 1) env).rest⟩ := by
  conv_lhs => rw [paginate]
  simp [h]

/-- One step of the pagination loop on a successful response with no next
page: record the request, yield the page, stop. -/
lemma paginate_cons_ok_false (win : Int × Int) (ec ic : Bool) (tok : Option String)
    (num : Int) (resp : PageResponse) (env : List (Except String PageResponse))
    (h : truthyStr resp.paging.nextPageURL = false) :
    paginate win ec ic tok num (Except.ok resp :: env) =
      ⟨[mkBookingReq win ec ic tok num], resp.data, .done, env⟩ := by
  conv_lhs => rw [paginate]
  simp [h]

/-- Under the normal pagination protocol — every response but the last
declares a next page, the last does not — the loop consumes exactly the
given responses, issues the expected transcript, yields the
concatenation of all pages' records in order, and terminates normally. -/
lemma paginate_normal (win : Int × Int) (ec ic : Bool) :
    ∀ (rs : List PageResponse) (tok : Option String) (num : Int), rs ≠ [] →
      (∀ i : Nat, i + 1 < rs.length →
        ∃ r, rs[i]? = some r ∧ truthyStr r.paging.nextPageURL = true) →
      (∀ r, rs.getLast? = some r → truthyStr r.paging.nextPageURL = false) →
      paginate win ec ic tok num (rs.map Except.ok) =
        ⟨pageReqs win ec ic tok num rs, (rs.map PageResponse.data).flatten, .done, []⟩ := by
  intro rs
  induction rs with
  | nil => intro tok num h; exact absurd rfl h
  | cons r rest ih =>
    intro tok num _ hmid hlast
    cases rest with
    | nil =>
      have hr : truthyStr r.paging.nextPageURL = false := hlast r rfl
      rw [List.map_cons, List.map_nil, paginate_cons_ok_false win ec ic tok num r [] hr]
      simp [pageReqs]
    | cons x xs =>
      have hr : truthyStr r.paging.nextPageURL = true := by
        obtain ⟨r', hr', ht⟩ := hmid 0 (by simp)
        simp only [List.getElem?_cons_zero, Option.some.injEq] at hr'
        rw [hr']; exact ht
      have hmid' : ∀ i : Nat, i + 1 < (x :: xs).length →
          ∃ q, (x :: xs)[i]? = some q ∧ truthyStr q.paging.nextPageURL = true := by
        intro i hi
        have := hmid (i + 1) (by simp at hi ⊢; omega)
        simpa using this
      have hlast' : ∀ q, (x :: xs).getLast? = some q →
          truthyStr q.paging.nextPageURL = false := by
        intro q hq
        exact hlast q (by rw [List.getLast?_cons_cons]; exact hq)
      have ihres := ih r.paging.pageNavigationToken
        ((r.paging.currentPage.getD 1) + 1) (by simp) hmid' hlast'
      rw [List.map_cons,
        paginate_cons_ok_true win ec ic tok num r ((x :: xs).map Except.ok) hr, ihres]
      simp [pageReqs]

/-- Position `i + 1` of the expected transcript is the follow-up request
built from response `i`: it carries that response's navigation token and
its currentPage (default 1) plus one. -/
lemma pageReqs_get_succ (win : Int × Int) (ec ic : Bool) :
    ∀ (rs : List PageResponse) (tok : Option String) (num : Int) (i : Nat)
      (r : PageResponse), rs[i]? = some r → i + 1 < rs.length →
      (pageReqs win ec ic tok num rs)[i + 1]? =
        some (mkBookingReq win ec ic r.paging.pageNavigationToken
          ((r.paging.currentPage.getD 1) + 1)) := by
  intro rs
  induction rs with
  | nil => intro tok num i r h hi; simp at hi
  | cons x xs ih =>
    intro tok num i r h hi
    cases i with
    | zero =>
      simp only [List.getElem?_cons_zero, Option.some.injEq] at h
      subst h
      cases xs with
      | nil => simp at hi
      | cons y ys => simp [pageReqs]
    | succ j =>
      simp only [List.getElem?_cons_succ] at h
      have hi2 : j + 1 < xs.length := by
        simp only [List.length_cons] at hi
        omega
      simp only [pageReqs, List.getElem?_cons_succ]
      exact ih _ _ j r h hi2

/-- Claim C3.  Within one chunk, given responses where every page but the
last carries a non-empty next-page indicator and a non-empty navigation
token and the last carries none: the loop terminates normally having
consumed exactly the given responses (so it stops after exactly one
terminal response), yields every record of every page in page order,
issues one request per response, the first request carrying no cursor,
and each follow-up request carrying the previous response's returned
cursor token together with its currentPage (default 1) plus one, at the
same chunk window. -/
theorem c3_pagination_follows_cursors (win : Int × Int) (ec ic : Bool)
    (rs : List PageResponse) (h1 : rs ≠ [])
    (h2 : ∀ i : Nat, i + 1 < rs.length →
        ∃ r, rs[i]? = some r ∧ truthyStr r.paging.nextPageURL = true ∧
          ∃ t, r.paging.pageNavigationToken = some t ∧ t ≠ (""))
    (h3 : ∀ r, rs.getLast? = some r → truthyStr r.paging.nextPageURL = false) :
    (paginate win ec ic none 0 (rs.map Except.ok)).status = .done ∧
    (paginate win ec ic none 0 (rs.map Except.ok)).rest = [] ∧
    (paginate win ec ic none 0 (rs.map Except.ok)).recs =
      (rs.map PageResponse.data).flatten ∧
    (paginate win ec ic none 0 (rs.map Except.ok)).reqs.length = rs.length ∧
    (paginate win ec ic none 0 (rs.map Except.ok)).reqs[0]? =
      some (mkBookingReq win ec ic none 0) ∧
    (mkBookingReq win ec ic none 0).cursor = none ∧
    (∀ i : Nat, i + 1 < rs.length →
        ∃ r req, rs[i]? = some r ∧
          (paginate win ec ic none 0 (rs.map Except.ok)).reqs[i + 1]? = some req ∧
          req.cursor = some (r.paging.pageNavigationToken.getD (""),
            (r.paging.currentPage.getD 1) + 1) ∧
          req.startTime = win.1 ∧ req.endTime = win.2) := by
  have hmid : ∀ i : Nat, i + 1 < rs.length →
      ∃ r, rs[i]? = some r ∧ truthyStr r.paging.nextPageURL = true := by
    intro i hi
    obtain ⟨r, hr, ht, _⟩ := h2 i hi
    exact ⟨r, hr, ht⟩
  have heq := paginate_normal win ec ic rs none 0 h1 hmid h3
  rw [heq]
  refine ⟨rfl, rfl, rfl, pageReqs_length win ec ic rs none 0, ?_, rfl, ?_⟩
  · obtain ⟨x, xs, rfl⟩ := List.exists_cons_of_ne_nil h1
    simp [pageReqs]
  · intro i hi
    obtain ⟨r, hri, _, t, htok, htne⟩ := h2 i hi
    refine ⟨r, _, hri, pageReqs_get_succ win ec ic rs none 0 i r hri hi, ?_, rfl, rfl⟩
    simp [mkBookingReq, pyCursor, htok, truthyStr, htne]

/-- Sample booking with only a booking number, for the pagination witness. -/
def sampleBooking (n : String) : Booking :=
  ⟨some n, none, none, none, none, none, none, none, none, none, none⟩

/-- First witness page: one record, next page declared with token TOK. -/
def samplePage1 : PageResponse :=
  ⟨[sampleBooking ("B1")], ⟨some ("next"), some ("TOK"), some 1⟩⟩

/-- Second witness page: one record, terminal (no next-page indicator). -/
def samplePage2 : PageResponse :=
  ⟨[sampleBooking ("B2")], ⟨none, none, none⟩⟩

/-- Claim C3 witness: a two-page run yields both records in order, issues
two requests, the second carrying cursor (TOK, 2), and stops at the
terminal page. -/
theorem c3_pagination_follows_cursors_witness :
    (paginate (0, 1) true false none 0 ([samplePage1, samplePage2].map Except.ok)).status =
      .done ∧
    (paginate (0, 1) true false none 0 ([samplePage1, samplePage2].map Except.ok)).rest = [] ∧
    (paginate (0, 1) true false none 0 ([samplePage1, samplePage2].map Except.ok)).recs =
      ([samplePage1, samplePage2].map PageResponse.data).flatten ∧
    (paginate (0, 1) true false none 0 ([samplePage1, samplePage2].map Except.ok)).reqs.length =
      [samplePage1, samplePage2].length ∧
    (paginate (0, 1) true false none 0 ([samplePage1, samplePage2].map Except.ok)).reqs[0]? =
      some (mkBookingReq (0, 1) true false none 0) ∧
    (mkBookingReq (0, 1) true false none 0).cursor = none ∧
    (∀ i : Nat, i + 1 < [samplePage1, samplePage2].length →
        ∃ r req, [samplePage1, samplePage2][i]? = some r ∧
          (paginate (0, 1) true false none 0
              ([samplePage1, samplePage2].map Except.ok)).reqs[i + 1]? = some req ∧
          req.cursor = some (r.paging.pageNavigationToken.getD (""),
            (r.paging.currentPage.getD 1) + 1) ∧
          req.startTime = (0 : Int) ∧ req.endTime = (1 : Int)) :=
  c3_pagination_follows_cursors (0, 1) true false [samplePage1, samplePage2]
    (by simp)
    (by
      intro i hi
      have hz : i = 0 := by simp only [List.length_cons, List.length_nil] at hi; omega
      subst hz
      exact ⟨samplePage1, rfl, by decide, ("TOK"), rfl, by decide⟩)
    (by
      intro r hr
      have hr2 : samplePage2 = r := Option.some_inj.mp hr
      rw [← hr2]
      rfl)

/-- The Stripe test applied to one analyzed payment (with its truthy-gateway
filter, which the "manual" substitution always satisfies) agrees with
testing the raw gateway name: the substituted "manual" never contains
"stripe", and an empty gateway name does not either. -/
lemma stripe_flag_pointwise (p : Payment) :
    (decide ((analyze_payment p).gateway ≠ ("")) &&
        strContains (pyLower (analyze_payment p).gateway) ("stripe")) =
      strContains (pyLower (p.gatewayName.getD (""))) ("stripe") := by
  by_cases h : p.gatewayName.getD ("") = ("")
  · have h2 : (analyze_payment p).gateway = ("manual") := by
      simp [analyze_payment, h]
    rw [h2, h]
    decide
  · simp [analyze_payment, h]

/-- Sample manual payment (no gateway) of 10 CAD paid in cash. -/
def samplePaymentManual : Payment :=
  ⟨some ⟨some 10, some ("CAD")⟩, some ("cash"), none, none, none, none⟩

/-- Sample Stripe-gateway payment of 25 CAD paid by credit card. -/
def samplePaymentStripe : Payment :=
  ⟨some ⟨some 25, some ("CAD")⟩, some ("creditCard"), some ("Stripe"), none, none, none⟩

/-- Claim C8.  On a successful payments fetch the tool returns the computed
report; a payment is classified manual iff its gateway name is empty,
`has_manual_payment` holds iff some payment has an empty gateway name,
`has_stripe_payment` holds iff some payment's gateway name contains
"stripe" case-insensitively, the payment methods are the distinct set of
observed methods, `total_paid` is the arithmetic sum of all payment
amounts, and the currency is the first payment's when any exist, else
the fallback "CAD"; in particular one manual payment plus one
Stripe-gateway payment sets both flags, reports both methods, and sums
both amounts. -/
theorem c8_payment_analysis (bn : String) (ps : List Payment) :
    get_booking_payments bn (.ok ps) = .value (paymentsReport bn ps) ∧
    (paymentsReport bn ps).payment_count = ps.length ∧
    (∀ p ∈ ps, ((analyze_payment p).is_manual = true ↔ p.gatewayName.getD ("") = (""))) ∧
    ((paymentsReport bn ps).has_manual_payment = true ↔
      ∃ p ∈ ps, p.gatewayName.getD ("") = ("")) ∧
    ((paymentsReport bn ps).has_stripe_payment = true ↔
      ∃ p ∈ ps, strContains (pyLower (p.gatewayName.getD (""))) ("stripe") = true) ∧
    (paymentsReport bn ps).payment_methods.Nodup ∧
    (∀ m, m ∈ (paymentsReport bn ps).payment_methods ↔
      ∃ p ∈ ps, p.paymentMethod.getD ("unknown") = m) ∧
    (paymentsReport bn ps).total_paid =
      (ps.map (fun p => (p.amount.getD default).amount.getD 0)).sum ∧
    (paymentsReport bn ps).currency =
      (ps.head?.map (fun p => (p.amount.getD default).currency.getD ("CAD"))).getD ("CAD") ∧
    (paymentsReport ("123") [samplePaymentManual, samplePaymentStripe]).has_manual_payment =
      true ∧
    (paymentsReport ("123") [samplePaymentManual, samplePaymentStripe]).has_stripe_payment =
      true ∧
    (paymentsReport ("123") [samplePaymentManual, samplePaymentStripe]).payment_methods =
      [("cash"), ("creditCard")] ∧
    (paymentsReport ("123") [samplePaymentManual, samplePaymentStripe]).total_paid =
      10 + 25 := by
  refine ⟨rfl, rfl, ?_, ?_, ?_, ?_, ?_, ?_, ?_, by decide, by decide, by decide, ?_⟩
  · intro p _
    simp [analyze_payment]
  · simp only [paymentsReport, List.any_eq_true, List.mem_map]
    constructor
    · rintro ⟨a, ⟨p, hp, rfl⟩, hf⟩
      refine ⟨p, hp, ?_⟩
      simpa [analyze_payment] using hf
    · rintro ⟨p, hp, hgw⟩
      refine ⟨analyze_payment p, ⟨p, hp, rfl⟩, ?_⟩
      simpa [analyze_payment] using hgw
  · simp only [paymentsReport, List.any_eq_true, List.mem_map]
    constructor
    · rintro ⟨a, ⟨p, hp, rfl⟩, hf⟩
      refine ⟨p, hp, ?_⟩
      rw [← stripe_flag_pointwise p]
      exact hf
    · rintro ⟨p, hp, hs⟩
      refine ⟨analyze_payment p, ⟨p, hp, rfl⟩, ?_⟩
      rw [stripe_flag_pointwise p]
      exact hs
  · exact List.nodup_dedup _
  · intro m
    simp [paymentsReport, List.mem_dedup, List.mem_map, analyze_payment]
  · simp only [paymentsReport, List.map_map]
    congr 1
  · cases ps with
    | nil => rfl
    | cons p t => simp [paymentsReport, analyze_payment]
  · show ((([samplePaymentManual, samplePaymentStripe].map
        analyze_payment).map (fun a => a.amount.amount.getD 0)).sum : ℚ) = 10 + 25
    norm_num [samplePaymentManual, samplePaymentStripe, analyze_payment]

/-- Claim C4 witness: two rate-limited responses (Retry-After 5, then
absent header) followed by a 503 produce three identical attempts,
sleeps of 5 and 60, and a propagated error 503. -/
theorem c4_retry_until_non_429_witness :
    requestLoop ("GET /bookings") [⟨429, some 5, (0 : Nat)⟩, ⟨429, none, 0⟩, ⟨503, none, 0⟩] =
      ⟨List.replicate 3 ("GET /bookings"), [5, 60], some (.error 503)⟩ := by
  have h := c4_retry_until_non_429 ("GET /bookings")
    [⟨429, some 5, (0 : Nat)⟩, ⟨429, none, 0⟩] ⟨503, none, 0⟩ (by decide) (by decide)
  simpa using h
